import Mathlib

/-!
Verification of the consultation-processing pipeline of the Vet-notes
application (browser recorder → upload gateway → background pipeline:
audio normalization → transcription → SOAP-note generation → persisted
record).  The definitions below are a shallow embedding of the
TypeScript source: external effects (the OpenAI calls, `ffmpeg`
invocations, the file system and the database) are modelled as explicit
environment values, and every server/client function is translated into
a pure Lean function over those environments.
-/

namespace VetNotes

/-- JavaScript string truthiness applied by `a || b` when `a` is a
string or `undefined`: the default is taken when the value is absent or
is the empty string. -/
def jsOrStr (v : Option String) (d : String) : String :=
  match v with
  | none => d
  | some s => if s = "" then d else s

/-- A consultation row (the fields the pipeline and the edit path touch,
from the `consultations` table of `@shared/schema`). -/
structure Consultation where
  id : Nat
  userId : String
  status : String
  fullTranscription : Option String
  aiSoapNote : Option String
  finalSoapNote : Option String
  isFinalized : Bool
deriving DecidableEq

/-! ## Audio normalizer (`transcribeAudio` in server/openai.ts)

The environment records the observable outcome of each external step:
whether each `ffmpeg` invocation (`execSync`) threw, the size of the
output file each attempt left on disk (`none` = file missing), the size
of the original uploaded file, and the result of the Whisper call. -/

/-- The three on-disk files `transcribeAudio` can submit: the original
upload, the MP3 produced by the primary conversion, and the WAV produced
by the secondary (WebM-demux) conversion. -/
inductive AFile
  | original
  | mp3
  | wav
deriving DecidableEq

structure AudioEnv where
  /-- `execSync` of the primary ffmpeg command threw. -/
  primaryThrows : Bool
  /-- Size of the `.mp3` output path after the primary attempt
  (`none` = the file does not exist). -/
  primaryOutSize : Option Nat
  /-- `execSync` of the secondary ffmpeg command threw (relevant only
  when the secondary path is attempted). -/
  secondaryThrows : Bool
  /-- Size of the `.wav` output path after the secondary attempt. -/
  secondaryOutSize : Option Nat
  /-- Size of the original uploaded audio file. -/
  originalSize : Option Nat
  /-- Result of the Whisper transcription call on the submitted file. -/
  whisper : Except String String

/-- `fs.existsSync(p) && fs.statSync(p).size > 0`. -/
def nonEmptyFile : Option Nat → Bool
  | some n => decide (0 < n)
  | none => false

/-- The `.wav` artifact exists only when the secondary conversion was
attempted, i.e. only when the primary `execSync` threw. -/
def wavSize (env : AudioEnv) : Option Nat :=
  if env.primaryThrows then env.secondaryOutSize else none

def fileSize (env : AudioEnv) : AFile → Option Nat
  | .original => env.originalSize
  | .mp3 => env.primaryOutSize
  | .wav => wavSize env

/-- The `fileToUse` / `conversionSuccessful` pair computed by the
try/catch cascade of `transcribeAudio`: the primary conversion is tried
first; the secondary conversion is attempted only inside the `catch`
branch, i.e. only when the primary invocation threw; in all remaining
cases the original file is kept with `conversionSuccessful = false`. -/
def chooseFile (env : AudioEnv) : AFile × Bool :=
  if env.primaryThrows then
    if env.secondaryThrows then (.original, false)
    else if nonEmptyFile env.secondaryOutSize then (.wav, true)
    else (.original, false)
  else
    if nonEmptyFile env.primaryOutSize then (.mp3, true)
    else (.original, false)

/-- The cleanup block: runs only after a successful transcription and
only when `conversionSuccessful`; it unlinks the mp3 and wav artifacts
when they exist.  The original file is never unlinked. -/
def cleanupList (env : AudioEnv) (convOk : Bool) : List AFile :=
  if convOk then
    (if (fileSize env .mp3).isSome then [AFile.mp3] else [])
      ++ (if (fileSize env .wav).isSome then [AFile.wav] else [])
  else []

/-- Observable trace of one `transcribeAudio` run. -/
structure TranscribeTrace where
  result : Except String String
  fileUsed : AFile
  triedSecondary : Bool
  deleted : List AFile

/-- `transcribeAudio` from server/openai.ts: choose a file via the
conversion cascade, verify it exists and is non-empty (else throw
"Audio file is empty or corrupted"), submit it to Whisper, and on
success clean up converted artifacts.  Every thrown error is wrapped by
the outer catch into "Failed to transcribe audio: ...". -/
def transcribeAudio (env : AudioEnv) : TranscribeTrace :=
  if nonEmptyFile (fileSize env (chooseFile env).1) then
    match env.whisper with
    | .error e =>
        ⟨.error ("Failed to transcribe audio: " ++ e), (chooseFile env).1,
          env.primaryThrows, []⟩
    | .ok t =>
        ⟨.ok t, (chooseFile env).1, env.primaryThrows,
          cleanupList env (chooseFile env).2⟩
  else
    ⟨.error "Failed to transcribe audio: Audio file is empty or corrupted",
      (chooseFile env).1, env.primaryThrows, []⟩

/-! ## SOAP-note generation (`generateSoapNote` in server/openai.ts) -/

/-- The four optional fields of the JSON object the note service
returns (absent or empty fields fall back to the placeholder through
JavaScript `||`). -/
structure RawSoap where
  subjective : Option String
  objective : Option String
  assessment : Option String
  plan : Option String
deriving DecidableEq

/-- Outcome of `JSON.parse` on the response body: a parsed object or a
thrown `SyntaxError`. -/
inductive ParseOutcome
  | ok (r : RawSoap)
  | err (msg : String)
deriving DecidableEq

/-- Environment of one `generateSoapNote` call: the chat-completions
call either throws or yields the (possibly null) message content, and
`parse` is the behaviour of `JSON.parse` on strings. -/
structure NoteEnv where
  chat : Except String (Option String)
  parse : String → ParseOutcome

structure SoapNote where
  subjective : String
  objective : String
  assessment : String
  plan : String
deriving DecidableEq

/-- `generateSoapNote`: call the chat API; run
`JSON.parse(content || "\x7b\x7d")`; default every missing/empty field
to "Not mentioned".  A thrown parse error is caught by the local
catch block of the function and re-thrown as "Failed to generate SOAP note: ...",
so an unparseable body fails the step. -/
def generateSoapNote (env : NoteEnv) (_fullTranscription : String) :
    Except String SoapNote :=
  match env.chat with
  | .error e => .error ("Failed to generate SOAP note: " ++ e)
  | .ok content =>
    match env.parse (jsOrStr content "\x7b\x7d") with
    | .err e => .error ("Failed to generate SOAP note: " ++ e)
    | .ok r =>
        .ok ⟨jsOrStr r.subjective "Not mentioned",
             jsOrStr r.objective "Not mentioned",
             jsOrStr r.assessment "Not mentioned",
             jsOrStr r.plan "Not mentioned"⟩

/-- The display-ready note assembled by `processTranscription`. -/
def formatSoap (s : SoapNote) : String :=
  "Subjective:\n" ++ s.subjective ++ "\n\nObjective:\n" ++ s.objective
    ++ "\n\nAssessment:\n" ++ s.assessment ++ "\n\nPlan:\n" ++ s.plan

/-! ## Pipeline orchestrator (`processTranscription` in server/routes.ts) -/

structure PipeEnv where
  audio : AudioEnv
  note : NoteEnv

/-- `processTranscription`: transcribe, generate the note, and persist
`fullTranscription`, `aiSoapNote`, `finalSoapNote` (mirrored) and
`status = "completed"`; any thrown error is caught and only
`status = "failed"` is persisted. -/
def processTranscription (env : PipeEnv) (c : Consultation) : Consultation :=
  match (transcribeAudio env.audio).result with
  | .error _ => { c with status := "failed" }
  | .ok text =>
    match generateSoapNote env.note text with
    | .error _ => { c with status := "failed" }
    | .ok soap =>
        { c with
          fullTranscription := some text
          aiSoapNote := some (formatSoap soap)
          finalSoapNote := some (formatSoap soap)
          status := "completed" }

/-! ## Upload gateway (`POST /api/consultations` in server/routes.ts)

The route is multer middleware (`upload.single` with destination `uploads/`)
followed by the handler.  Multer stores the incoming audio part to a
randomly named temporary file under `uploads/` before the guards of
the handler run; the handler then validates, renames the stored file by
appending the original extension, creates the consultation row with
`status = "processing"`, and fires `processTranscription` detached. -/

/-- The multipart audio part of an upload request (payload size plus
the client-supplied original filename). -/
structure AudioPart where
  originalname : Option String
  bytes : Nat
deriving DecidableEq

/-- An incoming upload request: authenticated user, body fields, the
optional audio part, and the temp basename multer picks for it. -/
structure RawUpload where
  userId : String
  customerName : Option String
  customerId : Option Nat
  audio : Option AudioPart
  tmpName : String
deriving DecidableEq

/-- A customer row (the fields `POST /api/consultations` reads). -/
structure Customer where
  id : Nat
  userId : String
  name : String
  patientId : String
  petName : Option String
deriving DecidableEq

/-- Wall-clock components read from `new Date()` (month already in
human form, as `getMonth() + 1`). -/
structure Clock where
  year : Nat
  month : Nat
  day : Nat
  hour : Nat
  minute : Nat
deriving DecidableEq

/-- The row created by `storage.createConsultation` in the handler. -/
structure NewConsultation where
  userId : String
  customerId : Option Nat
  customerName : String
  patientId : String
  petName : String
  fileName : String
  audioUrl : String
  status : String
deriving DecidableEq

/-- Persistent-state effects performed while serving the route, in
order: the multer disk write, the `fs.renameSync`, the
`storage.createConsultation` insert, and the detached scheduling of
`processTranscription`. -/
inductive Effect
  | storeUpload (path : String)
  | renameFile (src dst : String)
  | createRecord (c : NewConsultation)
  | scheduleJob (audioPath : String)
deriving DecidableEq

inductive GatewayReply
  | badRequest (msg : String)
  | notFound (msg : String)
  | created (c : NewConsultation)
deriving DecidableEq

/-- The `padStart(2, "0")` padding on a decimal-rendered number. -/
def pad2 (n : Nat) : String :=
  if n < 10 then "0" ++ toString n else toString n

/-- One character of `.replace(/[^a-zA-Z0-9_]/g, "_")`. -/
def sanitizeChar (c : Char) : Char :=
  if c.isAlphanum || c == '_' then c else '_'

/-- `.replace(/[^a-zA-Z0-9_]/g, "_")`. -/
def sanitizeName (s : String) : String :=
  String.mk (s.toList.map sanitizeChar)

/-- The file-name template
`` `${patientId}_${petName}_${dateStamp}_${timeStamp}` `` followed by
the sanitizing replace. -/
def deriveFileName (patientId petName : String) (now : Clock) : String :=
  sanitizeName (patientId ++ "_" ++ petName ++ "_"
    ++ (toString now.year ++ pad2 now.month ++ pad2 now.day) ++ "_"
    ++ (pad2 now.hour ++ pad2 now.minute))

/-- Characters after the last dot of a list, if any. -/
def afterLastDot : List Char → Option (List Char)
  | [] => none
  | c :: rest =>
    match afterLastDot rest with
    | some e => some e
    | none => if c = '.' then some rest else none

/-- Split a character list on a separator character. -/
def splitOnChar (sep : Char) : List Char → List (List Char)
  | [] => [[]]
  | c :: rest =>
    let r := splitOnChar sep rest
    if c = sep then [] :: r
    else
      match r with
      | [] => [[c]]
      | g :: gs => (c :: g) :: gs

/-- The `path.extname` function of Node: the suffix of the basename
from its last dot, empty when there is no dot past the first
character. -/
def extname (s : String) : String :=
  match (splitOnChar '/' s.toList).getLastD [] with
  | [] => ""
  | _ :: rest =>
    match afterLastDot rest with
    | some e => String.mk ('.' :: e)
    | none => ""

/-- `customerId ? storage.getCustomer(parseInt(customerId), userId) :
undefined`. -/
def resolveCustomer (lookup : Nat → String → Option Customer)
    (raw : RawUpload) : Option Customer :=
  match raw.customerId with
  | some cid => lookup cid raw.userId
  | none => none

/-- The consultation row assembled on the accept path of the handler:
display fields resolved from the customer record or the ad-hoc name,
the derived sanitized `fileName`, and `audioUrl` set to the multer temp
path with the original extension appended (the target of
`fs.renameSync`). -/
def buildConsultation (raw : RawUpload) (a : AudioPart)
    (customerRecord : Option Customer) (now : Clock) : NewConsultation :=
  let clientName :=
    jsOrStr (customerRecord.map (·.name)) (jsOrStr raw.customerName "")
  let patientId := jsOrStr (customerRecord.map (·.patientId)) "unknown"
  let petName := jsOrStr (customerRecord.bind (·.petName)) "patient"
  let originalName := jsOrStr a.originalname "recording.webm"
  let extension := jsOrStr (some (extname originalName)) ".webm"
  { userId := raw.userId
    customerId := raw.customerId
    customerName := clientName
    patientId := patientId
    petName := petName
    fileName := deriveFileName patientId petName now
    audioUrl := ("uploads/" ++ raw.tmpName) ++ extension
    status := "processing" }

/-- The `POST /api/consultations` route: multer middleware (which
stores the audio part, when present, to `uploads/<tmpName>` before the
handler runs) followed by the handler body with its guards in source
order.  Returns the HTTP-level reply and the ordered list of
persistent-state effects performed; `lookup` is
`storage.getCustomer`. -/
def postConsultation (lookup : Nat → String → Option Customer)
    (now : Clock) (raw : RawUpload) : GatewayReply × List Effect :=
  let multerEff : List Effect :=
    match raw.audio with
    | some _ => [.storeUpload ("uploads/" ++ raw.tmpName)]
    | none => []
  if jsOrStr raw.customerName "" = "" ∧ raw.customerId = none then
    (.badRequest "Customer name or ID is required", multerEff)
  else
    match raw.audio with
    | none => (.badRequest "Audio file is required", multerEff)
    | some a =>
      let customerRecord := resolveCustomer lookup raw
      if raw.customerId.isSome ∧ customerRecord = none then
        (.notFound "Patient not found", multerEff)
      else
        let c := buildConsultation raw a customerRecord now
        (.created c,
          multerEff ++ [.renameFile ("uploads/" ++ raw.tmpName) c.audioUrl,
            .createRecord c, .scheduleJob c.audioUrl])

/-! ## Edit/finalize path (`PUT /api/consultations/:id`)

`consultationUpdateSchema = insertConsultationSchema.pick({
finalSoapNote, isFinalized })`, then `.partial().parse(req.body)`:
every key other than `finalSoapNote` and `isFinalized` is stripped, and
`storage.updateConsultation` sets only the keys present. -/

/-- A client-supplied PUT body: any of these keys may be attempted,
including pipeline-owned ones. -/
structure PutBody where
  finalSoapNote : Option String
  isFinalized : Option Bool
  status : Option String
  fullTranscription : Option String
  aiSoapNote : Option String
deriving DecidableEq

/-- The object surviving `consultationUpdateSchema.partial().parse`:
only the two picked keys. -/
structure ConsultationUpdate where
  finalSoapNote : Option String
  isFinalized : Option Bool
deriving DecidableEq

def consultationUpdateParse (b : PutBody) : ConsultationUpdate :=
  ⟨b.finalSoapNote, b.isFinalized⟩

/-- `storage.updateConsultation` restricted to the parsed update:
the drizzle `.set` call writes exactly the keys present. -/
def updateConsultationFields (c : Consultation) (u : ConsultationUpdate) :
    Consultation :=
  { c with
    finalSoapNote := match u.finalSoapNote with
      | some v => some v
      | none => c.finalSoapNote
    isFinalized := u.isFinalized.getD c.isFinalized }

/-- The write performed by the `PUT /api/consultations/:id` handler. -/
def applyPut (c : Consultation) (b : PutBody) : Consultation :=
  updateConsultationFields c (consultationUpdateParse b)

/-! ## Status lifecycle traces

After creation the only writers of a consultation row are the single
detached `processTranscription` run (fired once, at creation) and the
PUT edit path.  A history of the row is a list of those events; the
pipeline event occurs at most once per row. -/

inductive PEvent
  | pipeline (env : PipeEnv)
  | put (b : PutBody)

def stepEvent (c : Consultation) : PEvent → Consultation
  | .pipeline env => processTranscription env c
  | .put b => applyPut c b

def runEvents (c : Consultation) : List PEvent → Consultation
  | [] => c
  | e :: es => runEvents (stepEvent c e) es

def pipelineCount : List PEvent → Nat
  | [] => 0
  | .pipeline _ :: es => pipelineCount es + 1
  | .put _ :: es => pipelineCount es

/-! ## Recording state machine (client/src/components/recording-controls.tsx) -/

inductive RecState
  | idle
  | recording
  | paused
  | stopped
deriving DecidableEq

/-- The user-visible toast errors the recording component raises. -/
inductive RecError
  | patientRequired
  | consentRequired
  | deviceError
  | noAudioData
  | emptyRecording
deriving DecidableEq

structure StartResult where
  state : RecState
  error : Option RecError
  captureStarted : Bool
deriving DecidableEq

/-- Drop leading whitespace characters. -/
def dropLeadingWs : List Char → List Char
  | [] => []
  | c :: rest => if c.isWhitespace then dropLeadingWs rest else c :: rest

/-- The JavaScript `String.prototype.trim`: strip whitespace from both
ends. -/
def jsTrim (s : String) : String :=
  String.mk (dropLeadingWs (dropLeadingWs s.toList.reverse).reverse)

/-- `startRecording`: guard on a blank patient name, then on consent,
then ask for the capture device; on device failure raise the
permissions error.  Only the success path changes the state. -/
def startRecording (s : RecState) (customerName : String)
    (consentConfirmed : Bool) (deviceOk : Bool) : StartResult :=
  if jsTrim customerName = "" then ⟨s, some .patientRequired, false⟩
  else if consentConfirmed = false then ⟨s, some .consentRequired, false⟩
  else if deviceOk then ⟨.recording, none, true⟩
  else ⟨s, some .deviceError, false⟩

structure StopResult where
  state : RecState
  duration : Nat
  uploadedBlob : Option Nat
  error : Option RecError
deriving DecidableEq

/-- `new Blob(audioChunks).size`: the concatenation of the buffered
fragments. -/
def blobSize (chunks : List Nat) : Nat := chunks.foldl (· + ·) 0

/-- `stopRecording`: with no recorder nothing happens; otherwise stop,
and in the trailing callback abort to idle on an empty chunk buffer or
a zero-length blob, else upload the blob and reset to idle
(`resetRecordingState` zeroes the duration in every reset). -/
def stopRecording (hasRecorder : Bool) (chunks : List Nat)
    (s : RecState) (duration : Nat) : StopResult :=
  if hasRecorder then
    if chunks.isEmpty then ⟨.idle, 0, none, some .noAudioData⟩
    else if blobSize chunks = 0 then ⟨.idle, 0, none, some .emptyRecording⟩
    else ⟨.idle, 0, some (blobSize chunks), none⟩
  else ⟨s, duration, none, none⟩

/-! ## Owner-scoped storage (`DatabaseStorage` in server/storage.ts) -/

/-- `getConsultation`: `select ... where id = ? and userId = ?`,
returning the first matching row. -/
def getConsultation (db : List Consultation) (id : Nat) (userId : String) :
    Option Consultation :=
  match db with
  | [] => none
  | r :: rest =>
    if r.id = id ∧ r.userId = userId then some r
    else getConsultation rest id userId

/-- `deleteConsultation`: `delete ... where id = ? and userId = ?`. -/
def deleteConsultation (db : List Consultation) (id : Nat)
    (userId : String) : List Consultation :=
  db.filter fun r => !(r.id == id && r.userId == userId)

/-! ## Concrete sample environments used by witnesses and
counterexamples -/

/-- A freshly created consultation row, as the gateway writes it. -/
def cSample : Consultation :=
  { id := 1, userId := "u1", status := "processing",
    fullTranscription := none, aiSoapNote := none, finalSoapNote := none,
    isFinalized := false }

/-- A concrete instance of the `JSON.parse` oracle agreeing with
`JSON.parse` on every string it is applied to in this file: the
empty-object source parses to the object with no fields, and the
non-JSON body "oops" raises a `SyntaxError`. -/
def parseModel : String → ParseOutcome := fun s =>
  if s = "\x7b\x7d" then .ok ⟨none, none, none, none⟩
  else .err "Unexpected token"

/-- An audio run where the primary conversion succeeds and Whisper
returns "hello". -/
def audioOk : AudioEnv :=
  { primaryThrows := false, primaryOutSize := some 5,
    secondaryThrows := false, secondaryOutSize := none,
    originalSize := some 9, whisper := .ok "hello" }

/-- A note-service call whose body is the non-JSON text "oops". -/
def noteEnvUnparseable : NoteEnv :=
  { chat := .ok (some "oops"), parse := parseModel }

/-- A note-service call that returns a null body (parsed as the empty
object). -/
def noteEnvDegenerate : NoteEnv :=
  { chat := .ok none, parse := parseModel }

def pipeEnvC1 : PipeEnv := { audio := audioOk, note := noteEnvUnparseable }

def pipeEnvC1W : PipeEnv := { audio := audioOk, note := noteEnvDegenerate }

/-- A pipeline run whose transcription step throws. -/
def envFailW : PipeEnv :=
  { audio := { audioOk with whisper := .error "boom" },
    note := noteEnvDegenerate }

/-- A pipeline run where Whisper succeeds but returns the empty
transcript. -/
def pipeEnvEmptyT : PipeEnv :=
  { audio := { audioOk with whisper := .ok "" }, note := noteEnvDegenerate }

def pipeEnvC3W : PipeEnv := { audio := audioOk, note := noteEnvDegenerate }

/-- An audio run whose primary conversion exits successfully but leaves
an empty output file, while a secondary conversion would have produced
a non-empty output. -/
def audioEnvEmptyPrimary : AudioEnv :=
  { primaryThrows := false, primaryOutSize := some 0,
    secondaryThrows := false, secondaryOutSize := some 7,
    originalSize := some 9, whisper := .ok "x" }

/-! ## C1 — parse-failure policy of the note step -/

/-- C1 counterexample: the speech-to-text step succeeds (Whisper
returns "hello") and the note service returns the non-parseable body
"oops"; `JSON.parse` throws inside the try block of
`generateSoapNote`, the catch re-throws, and `processTranscription`
persists `status = "failed"` with no content — the record does NOT
transition to `status = "completed"` with placeholder sections as the
claim states. -/
theorem note_parse_policy_counterexample :
    (transcribeAudio pipeEnvC1.audio).result = Except.ok "hello"
    ∧ pipeEnvC1.note.parse "oops" = ParseOutcome.err "Unexpected token"
    ∧ processTranscription pipeEnvC1 cSample = { cSample with status := "failed" }
    ∧ (processTranscription pipeEnvC1 cSample).status ≠ "completed"
    ∧ (processTranscription pipeEnvC1 cSample).fullTranscription = none := by
  refine ⟨rfl, rfl, rfl, ?_, rfl⟩
  decide

/-- C1 (amended): when the speech-to-text step succeeds and the note
service call itself succeeds, a body that parses to an object with no
sections (in particular a null body, which is replaced by the
empty-object source) yields the placeholder "Not mentioned" for every
section and the record completes with `fullTranscription` populated;
a non-parseable body instead makes `generateSoapNote` throw and the
record transitions to `status = "failed"`. -/
theorem note_parse_policy (env : PipeEnv) (c : Consultation) (t : String)
    (content : Option String)
    (ht : (transcribeAudio env.audio).result = Except.ok t)
    (hc : env.note.chat = Except.ok content) :
    (env.note.parse (jsOrStr content "\x7b\x7d")
        = ParseOutcome.ok ⟨none, none, none, none⟩ →
      processTranscription env c =
        { c with
          fullTranscription := some t
          aiSoapNote := some (formatSoap
            ⟨"Not mentioned", "Not mentioned", "Not mentioned", "Not mentioned"⟩)
          finalSoapNote := some (formatSoap
            ⟨"Not mentioned", "Not mentioned", "Not mentioned", "Not mentioned"⟩)
          status := "completed" })
    ∧ (∀ e, env.note.parse (jsOrStr content "\x7b\x7d") = ParseOutcome.err e →
        processTranscription env c = { c with status := "failed" }) := by
  constructor
  · intro hp
    simp only [processTranscription, generateSoapNote, ht, hc, hp]
    simp [jsOrStr]
  · intro e hp
    simp only [processTranscription, generateSoapNote, ht, hc, hp]

/-- C1 witness: the amended theorem applied to a concrete run whose
note body is null. -/
theorem note_parse_policy_witness :
    processTranscription pipeEnvC1W cSample =
      { cSample with
        fullTranscription := some "hello"
        aiSoapNote := some (formatSoap
          ⟨"Not mentioned", "Not mentioned", "Not mentioned", "Not mentioned"⟩)
        finalSoapNote := some (formatSoap
          ⟨"Not mentioned", "Not mentioned", "Not mentioned", "Not mentioned"⟩)
        status := "completed" } :=
  (note_parse_policy pipeEnvC1W cSample "hello" none rfl rfl).1 rfl

/-! ## C2 — a throwing run persists only the failed status -/

/-- C2: whenever either pipeline step throws (the transcription step,
which includes normalization, or the note-generation step), the
orchestrator persists exactly `status = "failed"`: every other field of
the record — in particular `fullTranscription`, `aiSoapNote` and
`finalSoapNote` — is left untouched, and the single catch block
performs no retry. -/
theorem failed_run_writes_only_status (env : PipeEnv) (c : Consultation)
    (h : (∃ e, (transcribeAudio env.audio).result = Except.error e)
       ∨ (∃ t e, (transcribeAudio env.audio).result = Except.ok t
            ∧ generateSoapNote env.note t = Except.error e)) :
    processTranscription env c = { c with status := "failed" } := by
  rcases h with ⟨e, he⟩ | ⟨t, e, ht, he⟩
  · simp [processTranscription, he]
  · simp [processTranscription, ht, he]

/-- C2 witness: a concrete run whose transcription call throws. -/
theorem failed_run_writes_only_status_witness :
    (transcribeAudio envFailW.audio).result
      = Except.error "Failed to transcribe audio: boom"
    ∧ processTranscription envFailW cSample
      = { cSample with status := "failed" } :=
  ⟨rfl, failed_run_writes_only_status envFailW cSample (Or.inl ⟨_, rfl⟩)⟩

/-! ## C3 — fields written by an error-free run -/

/-- The property the spec asserts of the generated note text: the four
section headers appear in the fixed order subjective → objective →
assessment → plan. -/
def headersInOrder (note : String) : Prop :=
  ∃ s1 s2 s3 s4,
    note = "Subjective:\n" ++ s1 ++ "\n\nObjective:\n" ++ s2
      ++ "\n\nAssessment:\n" ++ s3 ++ "\n\nPlan:\n" ++ s4

/-- C3 counterexample: a pipeline run in which Whisper succeeds but
returns the empty transcript completes without error, yet the final
record has `fullTranscription = some ""` — the empty string — so the
claimed non-emptiness of `fullTranscription` fails. -/
theorem complete_run_fields_counterexample :
    (processTranscription pipeEnvEmptyT cSample).status = "completed"
    ∧ (processTranscription pipeEnvEmptyT cSample).fullTranscription
        = some "" := by
  exact ⟨rfl, rfl⟩

/-- C3 (amended): a pipeline run that completes without error persists
`status = "completed"`, `fullTranscription` equal to the transcript
returned by the speech-to-text service (non-empty whenever that
transcript is non-empty — the code performs no emptiness check on it),
an `aiSoapNote` carrying the four section headers in the fixed order,
and `finalSoapNote` mirroring `aiSoapNote`. -/
theorem complete_run_fields (env : PipeEnv) (c : Consultation) (t : String)
    (soap : SoapNote)
    (ht : (transcribeAudio env.audio).result = Except.ok t)
    (hg : generateSoapNote env.note t = Except.ok soap) :
    processTranscription env c =
      { c with
        fullTranscription := some t
        aiSoapNote := some (formatSoap soap)
        finalSoapNote := some (formatSoap soap)
        status := "completed" }
    ∧ (processTranscription env c).finalSoapNote
        = (processTranscription env c).aiSoapNote
    ∧ (t ≠ "" → (processTranscription env c).fullTranscription ≠ some "")
    ∧ (∃ note, (processTranscription env c).aiSoapNote = some note
        ∧ headersInOrder note) := by
  have hmain : processTranscription env c =
      { c with
        fullTranscription := some t
        aiSoapNote := some (formatSoap soap)
        finalSoapNote := some (formatSoap soap)
        status := "completed" } := by
    simp [processTranscription, ht, hg]
  refine ⟨hmain, ?_, ?_, ?_⟩
  · rw [hmain]
  · intro hne
    rw [hmain]
    simp [hne]
  · exact ⟨formatSoap soap, by rw [hmain],
      soap.subjective, soap.objective, soap.assessment, soap.plan, rfl⟩

/-- C3 witness: the amended theorem applied to a concrete error-free
run with transcript "hello". -/
theorem complete_run_fields_witness :
    processTranscription pipeEnvC3W cSample =
      { cSample with
        fullTranscription := some "hello"
        aiSoapNote := some (formatSoap
          ⟨"Not mentioned", "Not mentioned", "Not mentioned", "Not mentioned"⟩)
        finalSoapNote := some (formatSoap
          ⟨"Not mentioned", "Not mentioned", "Not mentioned", "Not mentioned"⟩)
        status := "completed" }
    ∧ (processTranscription pipeEnvC3W cSample).fullTranscription ≠ some "" :=
  ⟨(complete_run_fields pipeEnvC3W cSample "hello"
      ⟨"Not mentioned", "Not mentioned", "Not mentioned", "Not mentioned"⟩
      rfl rfl).1,
   (complete_run_fields pipeEnvC3W cSample "hello"
      ⟨"Not mentioned", "Not mentioned", "Not mentioned", "Not mentioned"⟩
      rfl rfl).2.2.1 (by decide)⟩

/-! ## C7 — start-recording guards -/

/-- C7 counterexample: attempting to start recording with consent not
confirmed AND an empty patient association leaves the machine at idle
and starts no capture, but the error raised is the patient-selection
error, not the consent error — the claim that the consent error is
raised for ALL patient-association values (including the empty one)
fails, because the blank-patient guard runs first. -/
theorem start_guard_counterexample :
    (startRecording RecState.idle "" false true).state = RecState.idle
    ∧ (startRecording RecState.idle "" false true).error
        = some RecError.patientRequired
    ∧ (startRecording RecState.idle "" false true).error
        ≠ some RecError.consentRequired
    ∧ (startRecording RecState.idle "" false true).captureStarted = false := by
  decide


/-- C7 (amended): attempting the idle → recording transition without
consent confirmed leaves the state machine in its current state and
starts no capture, for all patient-association values; the consent
error is raised exactly when the patient association is non-blank,
while a blank patient association raises the patient-selection error
instead (that guard runs first). -/
theorem start_guard_requires_consent (s : RecState) (customerName : String)
    (deviceOk : Bool) :
    (startRecording s customerName false deviceOk).state = s
    ∧ (startRecording s customerName false deviceOk).captureStarted = false
    ∧ (startRecording s customerName false deviceOk).error
        = some (if jsTrim customerName = "" then RecError.patientRequired
                else RecError.consentRequired) := by
  by_cases h : jsTrim customerName = "" <;> simp [startRecording, h]

/-- C7 witness: the amended guard theorem applied at a concrete
non-blank patient name. -/
theorem start_guard_requires_consent_witness :
    (startRecording RecState.idle "Alice" false true).state = RecState.idle
    ∧ (startRecording RecState.idle "Alice" false true).captureStarted = false
    ∧ (startRecording RecState.idle "Alice" false true).error
        = some (if jsTrim "Alice" = "" then RecError.patientRequired
                else RecError.consentRequired) :=
  start_guard_requires_consent RecState.idle "Alice" true

/-! ## C8 — stopping with no audio -/

/-- C8: stopping a recording with zero accumulated audio fragments, or
with fragments concatenating to a zero-length blob, raises a
user-visible error and resets the machine to idle without invoking the
upload gateway, for any prior state and duration value. -/
theorem stop_empty_no_upload (chunks : List Nat) (s : RecState) (d : Nat)
    (h : chunks = [] ∨ blobSize chunks = 0) :
    (stopRecording true chunks s d).state = RecState.idle
    ∧ (stopRecording true chunks s d).uploadedBlob = none
    ∧ (stopRecording true chunks s d).error.isSome = true := by
  rcases h with h | h
  · subst h
    simp [stopRecording, blobSize]
  · by_cases hc : chunks.isEmpty <;> simp [stopRecording, hc, h]

/-- C8 witness: a stop with an empty fragment buffer after 5 recorded
seconds. -/
theorem stop_empty_no_upload_witness :
    (stopRecording true [] RecState.recording 5).state = RecState.idle
    ∧ (stopRecording true [] RecState.recording 5).uploadedBlob = none
    ∧ (stopRecording true [] RecState.recording 5).error.isSome = true :=
  stop_empty_no_upload [] RecState.recording 5 (Or.inl rfl)

/-! ## C6 — conversion fallback chain -/

/-- The original source file never appears in the cleanup list. -/
theorem original_not_mem_cleanup (env : AudioEnv) (b : Bool) :
    AFile.original ∉ cleanupList env b := by
  unfold cleanupList
  split
  · intro hm
    rcases List.mem_append.mp hm with hm | hm
    · split at hm <;> simp_all
    · split at hm <;> simp_all
  · simp

/-- The cleanup list after a used conversion holds the mp3 artifact
whenever that artifact exists on disk. -/
theorem mem_cleanup_mp3 (env : AudioEnv)
    (h : env.primaryOutSize.isSome = true) :
    AFile.mp3 ∈ cleanupList env true := by
  unfold cleanupList
  simp [fileSize, h]

/-- The cleanup list after a used conversion holds the wav artifact
whenever that artifact exists on disk. -/
theorem mem_cleanup_wav (env : AudioEnv)
    (h : (wavSize env).isSome = true) :
    AFile.wav ∈ cleanupList env true := by
  cases hm : env.primaryOutSize.isSome <;>
    simp [cleanupList, fileSize, h, hm]

/-- After a successful run the deleted list is exactly the cleanup
list. -/
theorem transcribeAudio_ok_deleted (env : AudioEnv) (t : String)
    (hres : (transcribeAudio env).result = Except.ok t) :
    (transcribeAudio env).deleted = cleanupList env (chooseFile env).2 := by
  unfold transcribeAudio at hres ⊢
  cases hb : nonEmptyFile (fileSize env (chooseFile env).1)
  · rw [hb] at hres
    simp at hres
  · cases hw : env.whisper
    · rw [hb, hw] at hres
      simp at hres
    · simp

/-- No run ever deletes the original source file. -/
theorem transcribeAudio_keeps_original (env : AudioEnv) :
    AFile.original ∉ (transcribeAudio env).deleted := by
  unfold transcribeAudio
  cases hb : nonEmptyFile (fileSize env (chooseFile env).1)
  · simp
  · cases hw : env.whisper
    · simp
    · simpa using original_not_mem_cleanup env (chooseFile env).2

/-- C6 counterexample: the primary `execSync` exits successfully but
leaves a zero-byte mp3; the code then skips the secondary conversion
entirely (it lives in the catch branch) and falls through to the
original file, even though the secondary output would have been
non-empty — contradicting the claim that an empty/missing primary
output triggers the secondary attempt. -/
theorem conversion_fallback_counterexample :
    audioEnvEmptyPrimary.primaryThrows = false
    ∧ audioEnvEmptyPrimary.primaryOutSize = some 0
    ∧ nonEmptyFile audioEnvEmptyPrimary.secondaryOutSize = true
    ∧ (transcribeAudio audioEnvEmptyPrimary).triedSecondary = false
    ∧ (transcribeAudio audioEnvEmptyPrimary).fileUsed = AFile.original := by
  decide

/-- C6 (amended): the primary conversion is tried first and used when
it exits successfully with a non-empty output; the secondary conversion
is attempted exactly when the primary invocation throws (a primary exit
with an empty/missing output falls through directly to the original
file); when both attempted paths fail the original unconverted file is
submitted; the file actually used is verified non-empty, a zero-length
or missing file being a hard failure; and on success the original file
is never deleted while the intermediate artifacts that exist are
deleted whenever a conversion was used. -/
theorem conversion_fallback (env : AudioEnv) :
    ((transcribeAudio env).triedSecondary = env.primaryThrows)
    ∧ ((transcribeAudio env).fileUsed = (chooseFile env).1)
    ∧ (env.primaryThrows = false → nonEmptyFile env.primaryOutSize = true →
        chooseFile env = (AFile.mp3, true))
    ∧ (env.primaryThrows = true →
        (env.secondaryThrows = true ∨ nonEmptyFile env.secondaryOutSize = false) →
        (chooseFile env).1 = AFile.original)
    ∧ (nonEmptyFile (fileSize env (chooseFile env).1) = false →
        ∃ e, (transcribeAudio env).result = Except.error e)
    ∧ (∀ t, (transcribeAudio env).result = Except.ok t →
        nonEmptyFile (fileSize env (chooseFile env).1) = true)
    ∧ (AFile.original ∉ (transcribeAudio env).deleted)
    ∧ (∀ t, (transcribeAudio env).result = Except.ok t →
        (chooseFile env).2 = true →
        (env.primaryOutSize.isSome = true →
          AFile.mp3 ∈ (transcribeAudio env).deleted)
        ∧ ((wavSize env).isSome = true →
          AFile.wav ∈ (transcribeAudio env).deleted)) := by
  refine ⟨?_, ?_, ?_, ?_, ?_, ?_, ?_, ?_⟩
  · unfold transcribeAudio
    cases hb : nonEmptyFile (fileSize env (chooseFile env).1)
    · rfl
    · cases hw : env.whisper <;> rfl
  · unfold transcribeAudio
    cases hb : nonEmptyFile (fileSize env (chooseFile env).1)
    · rfl
    · cases hw : env.whisper <;> rfl
  · intro h1 h2
    simp [chooseFile, h1, h2]
  · intro h1 h2
    rcases h2 with h2 | h2 <;> simp [chooseFile, h1, h2]
  · intro h
    refine ⟨"Failed to transcribe audio: Audio file is empty or corrupted", ?_⟩
    simp [transcribeAudio, h]
  · intro t hres
    cases hb : nonEmptyFile (fileSize env (chooseFile env).1)
    · simp [transcribeAudio, hb] at hres
    · rfl
  · exact transcribeAudio_keeps_original env
  · intro t hres hconv
    rw [transcribeAudio_ok_deleted env t hres, hconv]
    exact ⟨fun hm => mem_cleanup_mp3 env hm, fun hw => mem_cleanup_wav env hw⟩

/-- C6 witness: the amended theorem applied to a run where both
conversion attempts throw, so the original file is submitted, and to a
run whose primary conversion succeeds. -/
theorem conversion_fallback_witness :
    (chooseFile { audioOk with primaryThrows := true, secondaryThrows := true }).1
      = AFile.original
    ∧ chooseFile audioOk = (AFile.mp3, true)
    ∧ AFile.mp3 ∈ (transcribeAudio audioOk).deleted :=
  ⟨(conversion_fallback
      { audioOk with primaryThrows := true, secondaryThrows := true }).2.2.2.1
      rfl (Or.inl rfl),
   (conversion_fallback audioOk).2.2.1 rfl rfl,
   ((conversion_fallback audioOk).2.2.2.2.2.2.2 "hello" rfl rfl).1 rfl⟩

/-! ## C4 — status ownership and lifecycle -/

/-- The edit/finalize path never writes `status`. -/
theorem applyPut_status (c : Consultation) (b : PutBody) :
    (applyPut c b).status = c.status := rfl

/-- One pipeline write always lands on a terminal status. -/
theorem processTranscription_terminal (env : PipeEnv) (c : Consultation) :
    (processTranscription env c).status = "completed"
    ∨ (processTranscription env c).status = "failed" := by
  unfold processTranscription
  cases hr : (transcribeAudio env.audio).result with
  | error e =>
    right
    rfl
  | ok t =>
    cases hg : generateSoapNote env.note t with
    | error e =>
      right
      simp [hg]
    | ok s =>
      left
      simp [hg]

/-- A stretch of history without the pipeline event preserves the
status. -/
theorem runEvents_status_of_no_pipeline (es : List PEvent) :
    ∀ c : Consultation, pipelineCount es = 0 →
      (runEvents c es).status = c.status := by
  induction es with
  | nil =>
    intro c _
    rfl
  | cons e rest ih =>
    intro c h
    cases e with
    | pipeline env => simp [pipelineCount] at h
    | put b =>
      rw [runEvents, ih _ (by simpa [pipelineCount] using h)]
      exact applyPut_status c b

/-- Inversion of the gateway: a created reply comes from the accept
path, with the row built by `buildConsultation` from a present audio
part. -/
theorem postConsultation_created_inv
    (lookup : Nat → String → Option Customer) (now : Clock)
    (raw : RawUpload) (c : NewConsultation) (eff : List Effect)
    (h : postConsultation lookup now raw = (GatewayReply.created c, eff)) :
    ∃ a, raw.audio = some a
      ∧ c = buildConsultation raw a (resolveCustomer lookup raw) now := by
  obtain ⟨uid, cname, cid, audio, tmp⟩ := raw
  cases audio with
  | none =>
    unfold postConsultation at h
    dsimp only at h
    by_cases hg : jsOrStr cname "" = "" ∧ cid = none
    · rw [if_pos hg] at h
      exact absurd h (by simp)
    · rw [if_neg hg] at h
      exact absurd h (by simp)
  | some a =>
    unfold postConsultation at h
    dsimp only at h
    by_cases hg : jsOrStr cname "" = "" ∧ cid = none
    · rw [if_pos hg] at h
      exact absurd h (by simp)
    · rw [if_neg hg] at h
      by_cases hn : cid.isSome = true ∧
          resolveCustomer lookup ⟨uid, cname, cid, some a, tmp⟩ = none
      · rw [if_pos hn] at h
        exact absurd h (by simp)
      · rw [if_neg hn] at h
        simp only [Prod.mk.injEq, GatewayReply.created.injEq] at h
        exact ⟨a, rfl, h.1.symm⟩

/-- Lifecycle of the status along a history with at most one pipeline
event. -/
theorem status_lifecycle_aux (es : List PEvent) :
    ∀ c0 : Consultation, c0.status = "processing" → pipelineCount es ≤ 1 →
      ((runEvents c0 es).status = "processing" ∧ pipelineCount es = 0)
      ∨ (((runEvents c0 es).status = "completed"
          ∨ (runEvents c0 es).status = "failed")
        ∧ pipelineCount es = 1) := by
  induction es with
  | nil =>
    intro c0 h0 _
    exact Or.inl ⟨h0, rfl⟩
  | cons e rest ih =>
    intro c0 h0 h1
    cases e with
    | put b =>
      have hres := ih (applyPut c0 b)
        ((applyPut_status c0 b).trans h0)
        (by simpa [pipelineCount] using h1)
      simpa [runEvents, stepEvent, pipelineCount] using hres
    | pipeline env =>
      have hz : pipelineCount rest = 0 := by
        simp only [pipelineCount] at h1
        omega
      right
      constructor
      · rw [runEvents, show stepEvent c0 (PEvent.pipeline env)
            = processTranscription env c0 from rfl,
          runEvents_status_of_no_pipeline rest _ hz]
        exact processTranscription_terminal env c0
      · simp [pipelineCount, hz]

/-- C4: the status of a consultation starts at `"processing"` (the
gateway creates every record with that status), and along any history
in which the single detached pipeline run fires at most once, the
status either remains `"processing"` (no pipeline event yet) or is set
exactly once to a terminal value (`"completed"` or `"failed"`) and
never changes afterwards; the PUT edit path can change only
`finalSoapNote` and `isFinalized` and touches neither `status` nor any
other field. -/
theorem status_transition_discipline (c0 : Consultation) (es : List PEvent)
    (h0 : c0.status = "processing") (h1 : pipelineCount es ≤ 1) :
    (∀ (lookup : Nat → String → Option Customer) (now : Clock)
       (raw : RawUpload) (c : NewConsultation) (eff : List Effect),
       postConsultation lookup now raw = (GatewayReply.created c, eff) →
       c.status = "processing")
    ∧ (((runEvents c0 es).status = "processing" ∧ pipelineCount es = 0)
       ∨ (((runEvents c0 es).status = "completed"
            ∨ (runEvents c0 es).status = "failed")
          ∧ pipelineCount es = 1))
    ∧ (∀ es2, pipelineCount es2 = 0 →
        (runEvents (runEvents c0 es) es2).status = (runEvents c0 es).status)
    ∧ (∀ (c : Consultation) (b : PutBody),
        (applyPut c b).status = c.status
        ∧ (applyPut c b).fullTranscription = c.fullTranscription
        ∧ (applyPut c b).aiSoapNote = c.aiSoapNote
        ∧ (applyPut c b).userId = c.userId
        ∧ (applyPut c b).id = c.id) := by
  refine ⟨?_, status_lifecycle_aux es c0 h0 h1,
    fun es2 hz => runEvents_status_of_no_pipeline es2 _ hz,
    fun c b => ⟨rfl, rfl, rfl, rfl, rfl⟩⟩
  intro lookup now raw c eff h
  obtain ⟨a, -, hc⟩ := postConsultation_created_inv lookup now raw c eff h
  rw [hc]
  rfl

/-- A pipeline environment used by lifecycle witnesses. -/
def pipeEnvC4W : PipeEnv := { audio := audioOk, note := noteEnvDegenerate }

/-- A PUT body that attempts to overwrite pipeline-owned fields. -/
def putBodyW : PutBody :=
  { finalSoapNote := some "edited", isFinalized := some true,
    status := some "processing", fullTranscription := some "junk",
    aiSoapNote := some "junk" }

/-- C4 witness: the lifecycle theorem applied to a concrete history in
which the pipeline fires once and a user edit follows. -/
theorem status_transition_discipline_witness :
    cSample.status = "processing"
    ∧ pipelineCount [PEvent.pipeline pipeEnvC4W, PEvent.put putBodyW] ≤ 1
    ∧ (((runEvents cSample [PEvent.pipeline pipeEnvC4W, PEvent.put putBodyW]).status
          = "processing"
        ∧ pipelineCount [PEvent.pipeline pipeEnvC4W, PEvent.put putBodyW] = 0)
       ∨ (((runEvents cSample [PEvent.pipeline pipeEnvC4W, PEvent.put putBodyW]).status
            = "completed"
          ∨ (runEvents cSample [PEvent.pipeline pipeEnvC4W, PEvent.put putBodyW]).status
            = "failed")
          ∧ pipelineCount [PEvent.pipeline pipeEnvC4W, PEvent.put putBodyW] = 1)) :=
  ⟨rfl, by simp [pipelineCount],
   (status_transition_discipline cSample
      [PEvent.pipeline pipeEnvC4W, PEvent.put putBodyW] rfl
      (by simp [pipelineCount])).2.1⟩

/-! ## C5 — validation before any write -/

/-- A lookup that knows no customer. -/
def lookupNone : Nat → String → Option Customer := fun _ _ => none

/-- A fixed wall clock: 2025-01-02 03:04. -/
def clockW : Clock := { year := 2025, month := 1, day := 2, hour := 3, minute := 4 }

/-- An upload request with a patient name but no audio payload. -/
def rawNoAudio : RawUpload :=
  { userId := "u1", customerName := some "Alice", customerId := none,
    audio := none, tmpName := "tmp9" }

/-- An upload request with an audio payload but no patient id and no
patient name. -/
def rawNoPatient : RawUpload :=
  { userId := "u1", customerName := none, customerId := none,
    audio := some { originalname := some "recording.webm", bytes := 3 },
    tmpName := "tmpA" }

/-- C5 counterexample: a request carrying an audio payload but no
patient association is rejected with a validation error and the handler
performs no write — but the multer middleware has already stored the
payload to `uploads/tmpA` before the guards ran, and the rejected
request does not remove it, so persistent state IS modified by the
rejected request. -/
theorem upload_validation_counterexample :
    (postConsultation lookupNone clockW rawNoPatient).1
      = GatewayReply.badRequest "Customer name or ID is required"
    ∧ (postConsultation lookupNone clockW rawNoPatient).2
      = [Effect.storeUpload "uploads/tmpA"]
    ∧ (postConsultation lookupNone clockW rawNoPatient).2 ≠ [] := by
  refine ⟨rfl, rfl, ?_⟩
  decide

/-- C5 (amended): a request missing the audio payload, or missing both
a patient id and a patient display name, is rejected with a validation
error and no Consultation record is created, no stored file is renamed
and no pipeline job is scheduled; when the audio payload is absent no
persistent state at all is touched, while a rejected request that did
carry an audio payload leaves the multer-stored temp file behind. -/
theorem upload_validation_rejects (lookup : Nat → String → Option Customer)
    (now : Clock) (raw : RawUpload)
    (h : raw.audio = none
       ∨ (jsOrStr raw.customerName "" = "" ∧ raw.customerId = none)) :
    (∃ msg, (postConsultation lookup now raw).1 = GatewayReply.badRequest msg)
    ∧ (∀ c, Effect.createRecord c ∉ (postConsultation lookup now raw).2)
    ∧ (∀ src dst, Effect.renameFile src dst ∉ (postConsultation lookup now raw).2)
    ∧ (∀ p, Effect.scheduleJob p ∉ (postConsultation lookup now raw).2)
    ∧ (raw.audio = none → (postConsultation lookup now raw).2 = []) := by
  obtain ⟨uid, cname, cid, audio, tmp⟩ := raw
  cases audio with
  | none =>
    unfold postConsultation
    dsimp only
    by_cases hg : jsOrStr cname "" = "" ∧ cid = none
    · rw [if_pos hg]
      exact ⟨⟨_, rfl⟩, by simp, by simp, by simp, fun _ => rfl⟩
    · rw [if_neg hg]
      exact ⟨⟨_, rfl⟩, by simp, by simp, by simp, fun _ => rfl⟩
  | some a =>
    dsimp only at h
    rcases h with h | hg
    · exact absurd h (by simp)
    · unfold postConsultation
      dsimp only
      rw [if_pos hg]
      refine ⟨⟨_, rfl⟩, by simp, by simp, by simp, ?_⟩
      intro hcontra
      exact absurd hcontra (by simp)

/-- C5 witness: the amended theorem applied to a request with a patient
name but no audio payload. -/
theorem upload_validation_rejects_witness :
    (∃ msg, (postConsultation lookupNone clockW rawNoAudio).1
        = GatewayReply.badRequest msg)
    ∧ (postConsultation lookupNone clockW rawNoAudio).2 = [] :=
  ⟨(upload_validation_rejects lookupNone clockW rawNoAudio (Or.inl rfl)).1,
   (upload_validation_rejects lookupNone clockW rawNoAudio
      (Or.inl rfl)).2.2.2.2 rfl⟩

/-! ## C9 — file-name derivation and storage location -/

/-- Every character a sanitized name can contain lies in the safe set. -/
theorem sanitizeChar_safe (c : Char) :
    ((sanitizeChar c).isAlphanum || sanitizeChar c == '_') = true := by
  unfold sanitizeChar
  split
  · next hcond => exact hcond
  · decide

/-- Mapping the sanitizer over any character list yields only safe
characters. -/
theorem all_safe_map (l : List Char) :
    (l.map sanitizeChar).all (fun ch => ch.isAlphanum || ch == '_') = true := by
  induction l with
  | nil => rfl
  | cons c rest ih => simp [List.all_cons, sanitizeChar_safe c, ih]

/-- A sanitized name contains only characters of `[a-zA-Z0-9_]`. -/
theorem sanitizeName_safe (s : String) :
    (sanitizeName s).toList.all (fun ch => ch.isAlphanum || ch == '_')
      = true :=
  all_safe_map s.toList

/-- The customer row used by the C9 inputs. -/
def custRex : Customer :=
  { id := 7, userId := "u1", name := "Alice", patientId := "P1",
    petName := some "Rex" }

/-- A lookup storing exactly `custRex` for user u1. -/
def lookupRex : Nat → String → Option Customer := fun id uid =>
  if id = 7 ∧ uid = "u1" then some custRex else none

/-- An accepted upload for patient 7 whose multer temp name is
`tmp123`. -/
def rawRex : RawUpload :=
  { userId := "u1", customerName := none, customerId := some 7,
    audio := some { originalname := some "recording.webm", bytes := 3 },
    tmpName := "tmp123" }

/-- The row the gateway creates for `rawRex` at `clockW`. -/
def cRex : NewConsultation :=
  { userId := "u1", customerId := some 7, customerName := "Alice",
    patientId := "P1", petName := "Rex",
    fileName := "P1_Rex_20250102_0304",
    audioUrl := "uploads/tmp123.webm", status := "processing" }

/-- The effects the gateway performs for `rawRex` at `clockW`. -/
def effRex : List Effect :=
  [Effect.storeUpload "uploads/tmp123",
   Effect.renameFile "uploads/tmp123" "uploads/tmp123.webm",
   Effect.createRecord cRex,
   Effect.scheduleJob "uploads/tmp123.webm"]

/-- C9 counterexample: for a concrete accepted upload the gateway does
derive the sanitized name `P1_Rex_20250102_0304` from patient id, pet
name and timestamp — but it stores that name only in the `fileName`
field of the record; the raw audio payload is persisted at the multer
temp path with the extension appended (`uploads/tmp123.webm`), which is
not the derived name, contradicting the claim that the payload is
persisted under the derived name. -/
theorem stored_name_counterexample :
    (postConsultation lookupRex clockW rawRex).1 = GatewayReply.created cRex
    ∧ (postConsultation lookupRex clockW rawRex).2 = effRex
    ∧ cRex.fileName = "P1_Rex_20250102_0304"
    ∧ cRex.audioUrl = "uploads/tmp123.webm"
    ∧ cRex.audioUrl ≠ "uploads/" ++ cRex.fileName ++ ".webm" := by
  refine ⟨rfl, rfl, rfl, rfl, ?_⟩
  decide

/-- C9 (amended): for every accepted upload the gateway derives the
deterministic name `patientId_petName_date_time` sanitized to the safe
character set `[a-zA-Z0-9_]` and stores it in the `fileName` field of
the created record, while the raw audio payload is persisted under the
multer temporary path with the original extension (inferred from the
original filename of the upload, defaulting to `.webm`) appended — not
under the derived name. -/
theorem stored_name_derivation (lookup : Nat → String → Option Customer)
    (now : Clock) (raw : RawUpload) (c : NewConsultation)
    (eff : List Effect)
    (h : postConsultation lookup now raw = (GatewayReply.created c, eff)) :
    (∃ a, raw.audio = some a
      ∧ c.audioUrl = ("uploads/" ++ raw.tmpName)
          ++ jsOrStr (some (extname (jsOrStr a.originalname "recording.webm")))
              ".webm")
    ∧ c.fileName = deriveFileName c.patientId c.petName now
    ∧ c.fileName.toList.all (fun ch => ch.isAlphanum || ch == '_') = true := by
  obtain ⟨a, hau, hc⟩ := postConsultation_created_inv lookup now raw c eff h
  subst hc
  exact ⟨⟨a, hau, rfl⟩, rfl, sanitizeName_safe _⟩

/-- C9 witness: the amended theorem applied to the concrete accepted
upload `rawRex`. -/
theorem stored_name_derivation_witness :
    (∃ a, rawRex.audio = some a
      ∧ cRex.audioUrl = ("uploads/" ++ rawRex.tmpName)
          ++ jsOrStr (some (extname (jsOrStr a.originalname "recording.webm")))
              ".webm")
    ∧ cRex.fileName = deriveFileName cRex.patientId cRex.petName clockW
    ∧ cRex.fileName.toList.all (fun ch => ch.isAlphanum || ch == '_') = true :=
  stored_name_derivation lookupRex clockW rawRex cRex effRex rfl

/-! ## C10 — owner-scoped reads and deletes -/

/-- A found row matches both the id and the requesting user. -/
theorem getConsultation_spec (db : List Consultation) (id : Nat)
    (uid : String) (r : Consultation)
    (h : getConsultation db id uid = some r) :
    r ∈ db ∧ r.id = id ∧ r.userId = uid := by
  induction db with
  | nil => simp [getConsultation] at h
  | cons a rest ih =>
    rw [getConsultation] at h
    split at h
    · next hc =>
      injection h with h
      subst h
      exact ⟨List.mem_cons_self a rest, hc.1, hc.2⟩
    · next hc =>
      obtain ⟨hm, h1, h2⟩ := ih h
      exact ⟨List.mem_cons_of_mem a hm, h1, h2⟩

/-- When no row matches both keys, the read is absent. -/
theorem getConsultation_none (db : List Consultation) (id : Nat)
    (uid : String) (h : ∀ r ∈ db, r.id = id → r.userId ≠ uid) :
    getConsultation db id uid = none := by
  induction db with
  | nil => rfl
  | cons a rest ih =>
    rw [getConsultation, if_neg]
    · exact ih fun r hr => h r (List.mem_cons_of_mem a hr)
    · rintro ⟨h1, h2⟩
      exact h a (List.mem_cons_self a rest) h1 h2

/-- Membership in the post-delete table. -/
theorem mem_deleteConsultation (db : List Consultation) (id : Nat)
    (uid : String) (r : Consultation) :
    r ∈ deleteConsultation db id uid
      ↔ r ∈ db ∧ ¬(r.id = id ∧ r.userId = uid) := by
  unfold deleteConsultation
  rw [List.mem_filter]
  constructor
  · rintro ⟨hm, hp⟩
    refine ⟨hm, ?_⟩
    rintro ⟨h1, h2⟩
    simp [h1, h2] at hp
  · rintro ⟨hm, hp⟩
    refine ⟨hm, ?_⟩
    by_cases h1 : r.id = id
    · by_cases h2 : r.userId = uid
      · exact absurd ⟨h1, h2⟩ hp
      · simp [h1, h2]
    · simp [h1]

/-- C10: reads and deletes of consultations are owner-scoped: a read
returns a row only when both the id and the owning user match (and is
absent when the stored row with that id belongs to another user), and a
delete removes exactly the rows matching both keys — rows of other
users, including one with the same id, survive. -/
theorem owner_scoped_access (db : List Consultation) (id : Nat)
    (uid : String) :
    (∀ r, getConsultation db id uid = some r
        → r ∈ db ∧ r.id = id ∧ r.userId = uid)
    ∧ ((∀ r ∈ db, r.id = id → r.userId ≠ uid)
        → getConsultation db id uid = none)
    ∧ (∀ r ∈ db, ¬(r.id = id ∧ r.userId = uid)
        → r ∈ deleteConsultation db id uid)
    ∧ (∀ r ∈ deleteConsultation db id uid, r ∈ db)
    ∧ (∀ r ∈ db, r.id = id → r.userId = uid
        → r ∉ deleteConsultation db id uid) := by
  refine ⟨fun r h => getConsultation_spec db id uid r h,
    fun h => getConsultation_none db id uid h, ?_, ?_, ?_⟩
  · intro r hm hn
    exact (mem_deleteConsultation db id uid r).mpr ⟨hm, hn⟩
  · intro r hm
    exact ((mem_deleteConsultation db id uid r).mp hm).1
  · intro r hm h1 h2 hcontra
    exact ((mem_deleteConsultation db id uid r).mp hcontra).2 ⟨h1, h2⟩

/-- A two-user table used by the C10 witness. -/
def dbW : List Consultation :=
  [{ id := 1, userId := "alice", status := "completed",
     fullTranscription := some "t", aiSoapNote := some "n",
     finalSoapNote := some "n", isFinalized := false },
   { id := 2, userId := "bob", status := "processing",
     fullTranscription := none, aiSoapNote := none,
     finalSoapNote := none, isFinalized := false }]

/-- C10 witness: user alice can neither read nor delete the
consultation of user bob. -/
theorem owner_scoped_access_witness :
    getConsultation dbW 2 "alice" = none
    ∧ { id := 2, userId := "bob", status := "processing",
        fullTranscription := none, aiSoapNote := none,
        finalSoapNote := none, isFinalized := false }
      ∈ deleteConsultation dbW 2 "alice" :=
  ⟨(owner_scoped_access dbW 2 "alice").2.1 (by decide),
   (owner_scoped_access dbW 2 "alice").2.2.1 _ (by decide) (by decide)⟩

end VetNotes
